import Mathlib

/-!
Shallow embedding of `src/crunchy-cli-core/src/utils/log.rs` (the
`CliLogger` log sink, its progress widget management, and the
producer-side surface: the `ProgressHandler` scope guard and the
`progress!` / `progress_pause!` / `tab_info!` macros).

The external `log` crate's `Level` / `LevelFilter` orderings and the
`set_max_level` / `set_boxed_logger` semantics are modelled from that
crate's documented behaviour (they are external collaborators of this
module).  Terminal drawing is abstracted into an explicit trace of
output events (`Out`): lines printed to stdout / stderr, and the
observable spinner operations of the `indicatif` progress bar that the
sink performs (creation, print-above, visibility toggle, finish).
-/

namespace Crunchy

/-- Severity of a record, `log::Level`.  In the `log` crate the levels
are ordered `Error < Warn < Info < Debug < Trace`. -/
inductive Level where
  | error
  | warn
  | info
  | debug
  | trace
deriving DecidableEq, Repr

/-- The numeric value the `log` crate uses to order `Level` (`Error = 1`
up to `Trace = 5`). -/
def Level.toNat : Level → Nat
  | .error => 1
  | .warn => 2
  | .info => 3
  | .debug => 4
  | .trace => 5

/-- The uppercase rendering of a level used by `log::Level`'s `Display`
implementation (what `{}` prints in `extended`). -/
def Level.display : Level → String
  | .error => "ERROR"
  | .warn => "WARN"
  | .info => "INFO"
  | .debug => "DEBUG"
  | .trace => "TRACE"

/-- Verbosity filter, `log::LevelFilter`: `Off = 0`, then the five
levels in the same order. -/
inductive LevelFilter where
  | off
  | error
  | warn
  | info
  | debug
  | trace
deriving DecidableEq, Repr

/-- The numeric value the `log` crate uses to order `LevelFilter` and to
compare a `Level` against a `LevelFilter`. -/
def LevelFilter.toNat : LevelFilter → Nat
  | .off => 0
  | .error => 1
  | .warn => 2
  | .info => 3
  | .debug => 4
  | .trace => 5

/-- A log record as delivered to the sink: severity, target tag and the
already-formatted message (`record.args()`).  The originating thread id
and the wall-clock timestamp are ambient and passed to `log`
separately. -/
structure Record where
  level : Level
  target : String
  message : String
deriving DecidableEq, Repr

/-- Builds the record an `info!(target: t, msg)` emission produces. -/
def mkInfo (target msg : String) : Record :=
  { level := Level.info, target := target, message := msg }

/-- The observable state of the `indicatif::ProgressBar` spinner the
sink may own: its current message and whether its draw target is the
hidden one (`true`) or stdout (`false`). -/
structure Spinner where
  message : String
  hidden : Bool
deriving DecidableEq, Repr

/-- State of the `CliLogger` sink: the configured `level` and the
`progress: Mutex<Option<ProgressBar>>` slot. -/
structure LoggerState where
  level : LevelFilter
  progress : Option Spinner
deriving DecidableEq, Repr

/-- `CliLogger::new`. -/
def CliLogger.new (level : LevelFilter) : LoggerState :=
  { level := level, progress := none }

/-- One observable output effect of a `log` call. -/
inductive Out where
  /-- `println!`: one line on standard output. -/
  | out (line : String)
  /-- `eprintln!`: one line on standard error. -/
  | err (line : String)
  /-- A new spinner is constructed (`ProgressBar::new_spinner`), drawn
  to stdout, with the given initial message, and stored in the slot. -/
  | spinnerStart (msg : String)
  /-- `ProgressBar::println`: a line placed above the live spinner on
  standard output. -/
  | spinnerLine (line : String)
  /-- `set_draw_target`: the spinner's draw target becomes hidden
  (`true`) or stdout (`false`). -/
  | spinnerToggle (nowHidden : Bool)
  /-- `finish` / `finish_with_message`: the spinner is finalized and its
  last frame shows `finalMsg`. -/
  | spinnerFinish (finalMsg : String)
deriving DecidableEq, Repr

/-- Replace the first occurrence of `pat` in `s` by `rep`, on character
lists (all patterns used here are nonempty ASCII, where Rust's
byte-wise `str::replacen(pat, rep, 1)` coincides with this). -/
def replaceFirst : List Char → List Char → List Char → List Char
  | [], _, _ => []
  | c :: cs, pat, rep =>
    if pat.isPrefixOf (c :: cs) then rep ++ (c :: cs).drop pat.length
    else c :: replaceFirst cs pat rep

/-- `String::replacen(pat, rep, 1)` on Lean strings. -/
def replacen1 (s pat rep : String) : String :=
  ⟨replaceFirst s.data pat.data rep.data⟩

/-- `pre.isPrefixOf s` on strings; Rust's `str::starts_with`. -/
def strStartsWith (s pre : String) : Bool :=
  pre.data.isPrefixOf s.data

/-- The target normalisation applied by `CliLogger::extended`
(log.rs:134-138): `replacen("crunchy_cli_core", "crunchy_cli", 1)`,
then `replacen("progress_end", "crunchy_cli", 1)`, then
`replacen("progress", "crunchy_cli", 1)`. -/
def normalizeTarget (t : String) : String :=
  replacen1 (replacen1 (replacen1 t "crunchy_cli_core" "crunchy_cli")
      "progress_end" "crunchy_cli")
    "progress" "crunchy_cli"

/-- The line `CliLogger::extended` prints to stdout (log.rs:128-144):
`[<now>] <LEVEL>  <normalized target> (<thread id digits>) <message>`.
`now` is the formatted UTC timestamp and `tid` the digits of the
current thread's id, both ambient at the call. -/
def extendedLine (now : String) (tid : Nat) (r : Record) : String :=
  "[" ++ now ++ "] " ++ r.level.display ++ "  " ++ normalizeTarget r.target
    ++ " (" ++ toString tid ++ ") " ++ r.message

/-- `CliLogger::enabled` (log.rs:66-68): `metadata.level() <= self.level`. -/
def enabled (l : LoggerState) (r : Record) : Bool :=
  r.level.toNat ≤ l.level.toNat

/-- The admission test at the top of `CliLogger::log` (log.rs:71-78):
enabled, and the target is a reserved progress tag or starts with
`"crunchy_cli"`. -/
def admitted (l : LoggerState) (r : Record) : Bool :=
  enabled l r &&
    (r.target == "progress" || r.target == "progress_pause" ||
      r.target == "progress_end" || strStartsWith r.target "crunchy_cli")

/-- `CliLogger::progress` (log.rs:154-185).  With `stop` set and an
occupied slot it takes the spinner out and finishes it (`finish`
preserves the spinner's message, `finish_with_message` replaces it);
with an occupied slot and `stop` unset it prints `:: → <msg>` above the
spinner; otherwise (empty slot, either `stop` value) it constructs a
fresh spinner drawn to stdout with the record's message and stores
it. -/
def progressOp (l : LoggerState) (r : Record) (stop : Bool) :
    LoggerState × List Out :=
  let msg := r.message
  match l.progress with
  | some p =>
    if stop then
      ({ l with progress := none },
        [Out.spinnerFinish (if msg.isEmpty then p.message else msg)])
    else
      (l, [Out.spinnerLine (":: → " ++ msg)])
  | none =>
    ({ l with progress := some { message := msg, hidden := false } },
      [Out.spinnerStart msg])

/-- `CliLogger::normal` (log.rs:146-148): `println!(":: {}", args)`. -/
def normal (r : Record) : List Out :=
  [Out.out (":: " ++ r.message)]

/-- `CliLogger::error` (log.rs:150-152): `eprintln!(":: {}", args)`. -/
def errorOut (r : Record) : List Out :=
  [Out.err (":: " ++ r.message)]

/-- `CliLogger::log` (log.rs:70-108).  Returns the sink state after the
call and the list of output effects, in order. -/
def log (l : LoggerState) (now : String) (tid : Nat) (r : Record) :
    LoggerState × List Out :=
  if admitted l r then
    if LevelFilter.debug.toNat ≤ l.level.toNat then
      (l, [Out.out (extendedLine now tid r)])
    else if r.target == "progress" then
      progressOp l r false
    else if r.target == "progress_pause" then
      match l.progress with
      | some p =>
        ({ l with progress := some { p with hidden := !p.hidden } },
          [Out.spinnerToggle (!p.hidden)])
      | none => (l, [])
    else if r.target == "progress_end" then
      progressOp l r true
    else
      match l.progress with
      | some _ => progressOp l r false
      | none =>
        if Level.warn.toNat < r.level.toNat then (l, normal r)
        else (l, errorOut r)
  else
    (l, [])

/-- A sequence of `log` calls, each with its ambient timestamp and
thread id; outputs are concatenated in order. -/
def logAll (l : LoggerState) : List (String × Nat × Record) → LoggerState × List Out
  | [] => (l, [])
  | (now, tid, r) :: rest =>
    let st := log l now tid r
    let rst := logAll st.1 rest
    (rst.1, st.2 ++ rst.2)

/-- The `ProgressHandler` scope guard (log.rs:11-13). -/
structure ProgressHandler where
  stopped : Bool
deriving DecidableEq, Repr

/-- `ProgressHandler::stop` (log.rs:24-27): marks the guard stopped and
emits `info!(target: "progress_end", msg)`; returns the guard as it is
when Rust then drops the consumed `self`. -/
def ProgressHandler.stop (h : ProgressHandler) (msg : String) :
    ProgressHandler × List Record :=
  ({ h with stopped := true }, [mkInfo "progress_end" msg])

/-- `Drop for ProgressHandler` (log.rs:15-21): emits
`info!(target: "progress_end", "")` unless already stopped. -/
def ProgressHandler.dropGuard (h : ProgressHandler) : List Record :=
  if h.stopped then [] else [mkInfo "progress_end" ""]

/-- The `progress!` macro (log.rs:30-38): emits a `"progress"` info
record and hands back a fresh guard with `stopped: false`. -/
def progressBang (msg : String) : Record × ProgressHandler :=
  (mkInfo "progress" msg, { stopped := false })

/-- The records a guard emits over its whole lifetime: either an
explicit `stop msg` (after which Rust drops the consumed guard, whose
destructor then sees `stopped = true`), or a plain drop. -/
def guardLifetime (h : ProgressHandler) : Option String → List Record
  | some m =>
    let s := h.stop m
    s.2 ++ s.1.dropGuard
  | none => h.dropGuard

/-- The `progress_pause!` macro (log.rs:40-47): emits
`info!(target: "progress_pause", "")`. -/
def progressPauseBang : Record :=
  mkInfo "progress_pause" ""

/-- The `tab_info!` macro (log.rs:49-58): if the global max level is
exactly `LevelFilter::Debug` it emits a plain info record, otherwise an
info record whose message is prefixed with one tab.  `target` is the
call site's module path, `maxLevel` the global filter. -/
def tab_info (maxLevel : LevelFilter) (target msg : String) : Record :=
  if maxLevel == LevelFilter.debug then mkInfo target msg
  else mkInfo target ("\t" ++ msg)

/-- The `SetLoggerError` the `log` crate's `set_boxed_logger` returns
when a logger is already installed. -/
inductive SetLoggerError where
  | alreadyInit
deriving DecidableEq, Repr

/-- The process-wide state the `log` crate keeps: the max level set by
`set_max_level` and the installed logger, if any. -/
structure GlobalState where
  maxLevel : LevelFilter
  logger : Option LoggerState
deriving DecidableEq, Repr

/-- `CliLogger::init` (log.rs:123-126): `set_max_level(level)` first,
then `set_boxed_logger(Box::new(CliLogger::new(level)))`, which per the
`log` crate errors (leaving the installed logger unchanged) when a
logger is already installed. -/
def init (g : GlobalState) (level : LevelFilter) :
    GlobalState × Except SetLoggerError Unit :=
  let g1 : GlobalState := { g with maxLevel := level }
  match g1.logger with
  | some _ => (g1, Except.error SetLoggerError.alreadyInit)
  | none => ({ g1 with logger := some (CliLogger.new level) }, Except.ok ())

/-- C1: a record that fails the admission test (severity above the
configured verbosity, or target neither a reserved progress tag nor
starting with `"crunchy_cli"`) is dropped: the sink state — including
the progress slot — is unchanged and no output is produced on either
stream, whatever the configured mode. -/
theorem c1_unadmitted_record_is_dropped (l : LoggerState) (now : String)
    (tid : Nat) (r : Record) (h : admitted l r = false) :
    log l now tid r = (l, []) := by
  simp [log, h]

theorem c1_unadmitted_record_is_dropped_witness :
    admitted (CliLogger.new LevelFilter.trace) (mkInfo "serde_json" "x") = false ∧
      log (CliLogger.new LevelFilter.trace) "t" 0 (mkInfo "serde_json" "x") =
        (CliLogger.new LevelFilter.trace, []) :=
  ⟨by decide,
    c1_unadmitted_record_is_dropped (CliLogger.new LevelFilter.trace) "t" 0
      (mkInfo "serde_json" "x") (by decide)⟩

/-- C2: evaluation of the code at the failing input.  In terse mode
(level `Info`), a `"progress_end"` record arriving on an empty progress
slot is NOT a no-op: `CliLogger::progress` falls through to the
spinner-creation branch, so a fresh spinner with the record's message
is constructed and stored in the slot. -/
theorem c2_progress_end_on_empty_slot_creates_spinner :
    log (CliLogger.new LevelFilter.info) "t" 0 (mkInfo "progress_end" "") =
      ({ level := LevelFilter.info,
         progress := some { message := "", hidden := false } },
        [Out.spinnerStart ""]) := by
  decide

/-- C5: the scope guard returned by the `progress!` emission emits
exactly one `"progress_end"` record over its whole lifetime: with an
explicit `stop m` it is the single record carrying `m` (and the
destructor of the consumed guard emits nothing), with a plain drop it
is the single record carrying the empty message. -/
theorem c5_guard_emits_exactly_one_progress_end (msg : String)
    (endMsg : Option String) :
    ((guardLifetime (progressBang msg).2 endMsg).countP
        (fun r => r.target == "progress_end") = 1) ∧
      guardLifetime (progressBang msg).2 endMsg =
        [mkInfo "progress_end" (endMsg.getD "")] := by
  cases endMsg <;>
    simp [guardLifetime, progressBang, ProgressHandler.stop,
      ProgressHandler.dropGuard, mkInfo]

/-- C7, counterexample: at configured level `Trace` — verbose, finer
than `Debug` — `tab_info!` does not emit a plain info record: the
macro's test is an equality with `LevelFilter::Debug`, so at `Trace` it
takes the terse branch and prefixes the message with a tab. -/
theorem c7_tab_info_trace_is_not_plain :
    tab_info LevelFilter.trace "crunchy_cli::a" "m" =
        mkInfo "crunchy_cli::a" "\tm" ∧
      tab_info LevelFilter.trace "crunchy_cli::a" "m" ≠
        mkInfo "crunchy_cli::a" "m" := by
  decide

/-- C7, amended: `tab_info!` emits a record identical to a plain info
exactly when the configured max level equals `Debug`; in every other
mode — `Trace` included — it emits an info record whose message carries
one leading horizontal tab. -/
theorem c7_tab_info_amended (ml : LevelFilter) (target msg : String) :
    (ml = LevelFilter.debug → tab_info ml target msg = mkInfo target msg) ∧
      (ml ≠ LevelFilter.debug →
        tab_info ml target msg = mkInfo target ("\t" ++ msg)) := by
  constructor
  · intro h
    simp [tab_info, h]
  · intro h
    simp [tab_info, beq_iff_eq, h]

theorem c7_tab_info_amended_witness :
    tab_info LevelFilter.debug "crunchy_cli::a" "m" = mkInfo "crunchy_cli::a" "m" ∧
      tab_info LevelFilter.info "crunchy_cli::a" "m" =
        mkInfo "crunchy_cli::a" ("\t" ++ "m") :=
  ⟨(c7_tab_info_amended LevelFilter.debug "crunchy_cli::a" "m").1 rfl,
    (c7_tab_info_amended LevelFilter.info "crunchy_cli::a" "m").2 (by decide)⟩

/-- C10: `CliLogger::init` calls `set_max_level` before
`set_boxed_logger`, so when a logger is already installed the call
fails with the already-installed error yet has already replaced the
process-wide max level with the newly supplied value (the installed
logger itself is unchanged): initialization is not atomic on error. -/
theorem c10_init_sets_max_level_before_install (g : GlobalState)
    (lvl : LevelFilter) (h : g.logger.isSome = true) :
    (init g lvl).2 = Except.error SetLoggerError.alreadyInit ∧
      (init g lvl).1.maxLevel = lvl ∧ (init g lvl).1.logger = g.logger := by
  cases hg : g.logger with
  | none => rw [hg] at h; simp at h
  | some L => simp [init, hg]

theorem c10_init_sets_max_level_before_install_witness :
    (init { maxLevel := LevelFilter.info,
            logger := some (CliLogger.new LevelFilter.info) } LevelFilter.error).2 =
        Except.error SetLoggerError.alreadyInit ∧
      (init { maxLevel := LevelFilter.info,
              logger := some (CliLogger.new LevelFilter.info) } LevelFilter.error).1.maxLevel =
        LevelFilter.error ∧
      (init { maxLevel := LevelFilter.info,
              logger := some (CliLogger.new LevelFilter.info) } LevelFilter.error).1.logger =
        ({ maxLevel := LevelFilter.info,
           logger := some (CliLogger.new LevelFilter.info) } : GlobalState).logger :=
  c10_init_sets_max_level_before_install
    { maxLevel := LevelFilter.info, logger := some (CliLogger.new LevelFilter.info) }
    LevelFilter.error (by decide)

/-- In terse mode (`self.level >= LevelFilter::Debug` fails) the
extended branch of `log` is not taken. -/
theorem not_debug_le_of_terse {l : LoggerState} (h : l.level.toNat < 4) :
    ¬ (LevelFilter.debug.toNat ≤ l.level.toNat) :=
  Nat.not_le.mpr h

/-- C4: in terse mode, an admitted record whose target is none of the
three reserved progress tags, arriving while the progress slot is
empty, writes exactly the line `:: <message>` — to standard output when
its severity is strictly finer than `Warn`, to standard error when it
is `Warn` or coarser — and nothing else; the sink state is unchanged. -/
theorem c4_terse_plain_record_routing (l : LoggerState) (now : String)
    (tid : Nat) (r : Record) (hadm : admitted l r = true)
    (hterse : l.level.toNat < 4) (h1 : r.target ≠ "progress")
    (h2 : r.target ≠ "progress_pause") (h3 : r.target ≠ "progress_end")
    (hempty : l.progress = none) :
    log l now tid r =
      (l, if Level.warn.toNat < r.level.toNat
          then [Out.out (":: " ++ r.message)]
          else [Out.err (":: " ++ r.message)]) := by
  have hnd := not_debug_le_of_terse hterse
  simp [log, hadm, hnd, hempty, normal, errorOut, beq_iff_eq, h1, h2, h3]
  split <;> rfl

theorem c4_terse_plain_record_routing_witness :
    log (CliLogger.new LevelFilter.info) "t" 0
        { level := Level.error, target := "crunchy_cli::y", message := "boom" } =
      (CliLogger.new LevelFilter.info, [Out.err (":: " ++ "boom")]) := by
  have h := c4_terse_plain_record_routing (CliLogger.new LevelFilter.info) "t" 0
    { level := Level.error, target := "crunchy_cli::y", message := "boom" }
    (by decide) (by decide) (by decide) (by decide) (by decide) rfl
  simpa using h

/-- C8: in terse mode, an admitted `"progress_end"` record arriving
while the slot holds a spinner removes the spinner from the slot and
finishes it — preserving the spinner's current message when the
record's message is empty, and replacing it with the record's message
otherwise. -/
theorem c8_terse_progress_end_finishes_spinner (l : LoggerState)
    (now : String) (tid : Nat) (r : Record) (sp : Spinner)
    (hen : enabled l r = true) (hterse : l.level.toNat < 4)
    (ht : r.target = "progress_end") (hsp : l.progress = some sp) :
    log l now tid r =
      ({ l with progress := none },
        [Out.spinnerFinish (if r.message.isEmpty then sp.message else r.message)]) := by
  have hadm : admitted l r = true := by simp [admitted, hen, ht]
  have hnd := not_debug_le_of_terse hterse
  simp [log, hadm, hnd, ht, progressOp, hsp]

theorem c8_terse_progress_end_finishes_spinner_witness :
    log { level := LevelFilter.info, progress := some { message := "working", hidden := false } }
        "t" 0 (mkInfo "progress_end" "") =
      ({ level := LevelFilter.info, progress := none },
        [Out.spinnerFinish (if ("" : String).isEmpty then "working" else "")]) :=
  c8_terse_progress_end_finishes_spinner
    { level := LevelFilter.info, progress := some { message := "working", hidden := false } }
    "t" 0 (mkInfo "progress_end" "") { message := "working", hidden := false }
    (by decide) (by decide) rfl rfl

/-- C9: in terse mode, an admitted `"progress_pause"` record is a
no-op on an empty slot, toggles the live spinner's draw target between
stdout-visible and hidden on an occupied slot, and — for either
starting state — two consecutive such records restore the sink to its
original state, hence the spinner's original visibility. -/
theorem c9_terse_progress_pause_toggles (l : LoggerState)
    (now now2 : String) (tid tid2 : Nat) (r : Record)
    (hen : enabled l r = true) (hterse : l.level.toNat < 4)
    (ht : r.target = "progress_pause") :
    (l.progress = none → log l now tid r = (l, [])) ∧
      (∀ sp, l.progress = some sp →
        log l now tid r =
          ({ l with progress := some { sp with hidden := !sp.hidden } },
            [Out.spinnerToggle (!sp.hidden)])) ∧
      (log (log l now tid r).1 now2 tid2 r).1 = l := by
  have hadm : admitted l r = true := by simp [admitted, hen, ht]
  have hnd := not_debug_le_of_terse hterse
  obtain ⟨lv, pr⟩ := l
  refine ⟨?_, ?_, ?_⟩
  · intro hnone
    simp only at hnone
    subst hnone
    simp [log, hadm, hnd, ht]
  · intro sp hsp
    simp only at hsp
    subst hsp
    simp [log, hadm, hnd, ht]
  · cases hpr : pr with
    | none =>
      subst hpr
      simp [log, hadm, hnd, ht]
    | some sp =>
      subst hpr
      obtain ⟨m, b⟩ := sp
      have st1 : log ⟨lv, some ⟨m, b⟩⟩ now tid r =
          (⟨lv, some ⟨m, !b⟩⟩, [Out.spinnerToggle (!b)]) := by
        simp [log, hadm, hnd, ht]
      rw [st1]
      have hadm1 : admitted ⟨lv, some ⟨m, !b⟩⟩ r = true := by
        simpa [admitted, enabled] using hadm
      have hnd1 : ¬ (LevelFilter.debug.toNat ≤
          (LoggerState.mk lv (some ⟨m, !b⟩)).level.toNat) :=
        not_debug_le_of_terse hterse
      simp [log, hadm1, hnd1, ht]

theorem c9_terse_progress_pause_toggles_witness :
    (log (log { level := LevelFilter.info,
                progress := some { message := "x", hidden := false } }
          "a" 0 progressPauseBang).1 "b" 0 progressPauseBang).1 =
      { level := LevelFilter.info,
        progress := some { message := "x", hidden := false } } :=
  (c9_terse_progress_pause_toggles
    { level := LevelFilter.info, progress := some { message := "x", hidden := false } }
    "a" "b" 0 0 progressPauseBang (by decide) (by decide) rfl).2.2

/-- The line `extended` prints always begins with `[`, never with the
terse `:: ` prefix. -/
theorem extendedLine_not_terse (now : String) (tid : Nat) (r : Record) :
    strStartsWith (extendedLine now tid r) ":: " = false := rfl

/-- One `log` call in verbose mode leaves the sink state unchanged and
emits only stdout lines from the extended render. -/
theorem log_verbose_step (l : LoggerState) (now : String) (tid : Nat)
    (r : Record) (h : LevelFilter.debug.toNat ≤ l.level.toNat) :
    (log l now tid r).1 = l ∧
      ∀ o ∈ (log l now tid r).2,
        ∃ s, o = Out.out s ∧ strStartsWith s ":: " = false := by
  by_cases hadm : admitted l r = true
  · refine ⟨by simp [log, hadm, h], ?_⟩
    intro o ho
    simp [log, hadm, h] at ho
    exact ⟨extendedLine now tid r, ho, extendedLine_not_terse now tid r⟩
  · have hadm' : admitted l r = false := by simpa using hadm
    simp [log, hadm']

/-- C3: in verbose mode (configured level `Debug` or finer), any
sequence of records leaves the sink state — in particular the progress
slot — unchanged, so no spinner is ever constructed, and every output
produced is a stdout line of the extended render, never carrying the
terse `:: ` prefix. -/
theorem c3_verbose_all_extended (l : LoggerState)
    (inputs : List (String × Nat × Record))
    (h : LevelFilter.debug.toNat ≤ l.level.toNat) :
    (logAll l inputs).1 = l ∧
      ∀ o ∈ (logAll l inputs).2,
        ∃ s, o = Out.out s ∧ strStartsWith s ":: " = false := by
  induction inputs with
  | nil => simp [logAll]
  | cons x rest ih =>
    obtain ⟨now, tid, r⟩ := x
    have hs := log_verbose_step l now tid r h
    simp only [logAll]
    rw [hs.1]
    refine ⟨ih.1, ?_⟩
    intro o ho
    rcases List.mem_append.mp ho with h1 | h2
    · exact hs.2 o h1
    · exact ih.2 o h2

theorem c3_verbose_all_extended_witness :
    (logAll (CliLogger.new LevelFilter.debug)
        [("t", 0, mkInfo "progress" "m"),
         ("t", 0, { level := Level.error, target := "crunchy_cli::y", message := "boom" })]).1 =
      CliLogger.new LevelFilter.debug :=
  (c3_verbose_all_extended (CliLogger.new LevelFilter.debug)
    [("t", 0, mkInfo "progress" "m"),
     ("t", 0, { level := Level.error, target := "crunchy_cli::y", message := "boom" })]
    (by decide)).1

theorem replacen1_data (s pat rep : String) :
    (replacen1 s pat rep).data = replaceFirst s.data pat.data rep.data := rfl

/-- When the pattern is a nonempty prefix of the string, `replaceFirst`
replaces it at the front. -/
theorem replaceFirst_of_isPrefix (a b rep : List Char) (h : a ≠ []) :
    replaceFirst (a ++ b) a rep = rep ++ b := by
  cases a with
  | nil => exact absurd rfl h
  | cons c cs =>
    have hpre : (c :: cs).isPrefixOf (c :: (cs ++ b)) = true :=
      List.isPrefixOf_iff_prefix.mpr ⟨b, rfl⟩
    show replaceFirst (c :: (cs ++ b)) (c :: cs) rep = rep ++ b
    simp only [replaceFirst, hpre, if_true]
    simp [List.drop_left]

/-- `replaceFirst` skips over a leading segment that never contains the
pattern's first character. -/
theorem replaceFirst_append_head_notMem (d : Char) (pat rep a b : List Char)
    (h : d ∉ a) :
    replaceFirst (a ++ b) (d :: pat) rep = a ++ replaceFirst b (d :: pat) rep := by
  induction a with
  | nil => simp
  | cons c cs ih =>
    have hdc : (d == c) = false :=
      beq_eq_false_iff_ne.mpr (fun e => h (by simp [e]))
    have hpre : (d :: pat).isPrefixOf (c :: (cs ++ b)) = false := by
      simp [List.isPrefixOf, hdc]
    show replaceFirst (c :: (cs ++ b)) (d :: pat) rep =
      c :: (cs ++ replaceFirst b (d :: pat) rep)
    simp only [replaceFirst]
    rw [if_neg (by simp [hpre])]
    exact congrArg (c :: ·) (ih (fun m => h (List.mem_cons_of_mem c m)))

/-- C6, counterexample: in the extended render the reserved tag
`"progress_pause"` is NOT printed as `"crunchy_cli"`: only its
`"progress"` portion is replaced, so the printed target is
`"crunchy_cli_pause"`. -/
theorem c6_progress_pause_target_not_collapsed :
    extendedLine "2024-01-02 03:04:05" 7 (mkInfo "progress_pause" "m") =
        "[2024-01-02 03:04:05] INFO  crunchy_cli_pause (7) m" ∧
      normalizeTarget "progress_pause" ≠ "crunchy_cli" := by
  refine ⟨rfl, by decide⟩

/-- C6, amended: in the extended render's target normalisation the
reserved tags `"progress"` and `"progress_end"` collapse to exactly
`"crunchy_cli"`, while `"progress_pause"` becomes
`"crunchy_cli_pause"` (only its `"progress"` portion is replaced); and
a target beginning with `"crunchy_cli_core"` has that portion replaced
by `"crunchy_cli"`, the two progress replacements then applying only to
the remainder of the target. -/
theorem c6_target_normalisation_amended :
    normalizeTarget "progress" = "crunchy_cli" ∧
      normalizeTarget "progress_end" = "crunchy_cli" ∧
      normalizeTarget "progress_pause" = "crunchy_cli_pause" ∧
      ∀ rest : String,
        normalizeTarget ("crunchy_cli_core" ++ rest) =
          "crunchy_cli" ++
            replacen1 (replacen1 rest "progress_end" "crunchy_cli")
              "progress" "crunchy_cli" := by
  refine ⟨by decide, by decide, by decide, fun rest => ?_⟩
  apply String.ext
  simp only [normalizeTarget, replacen1_data, String.data_append]
  rw [replaceFirst_of_isPrefix _ _ _ (by decide)]
  rw [replaceFirst_append_head_notMem 'p' _ _ _ _ (by decide)]
  rw [replaceFirst_append_head_notMem 'p' _ _ _ _ (by decide)]

end Crunchy
